import Mathlib

/-!
Verification of the authentication and token-issuance core of `life-is-hard`.

The definitions below are a shallow embedding of
`internal/service/authentication.go` and
`internal/handler/oauth/token.go`:

* Machine integers (`int`) become `Int`; durations and timestamps are `Int`
  seconds.
* The JWT library boundary is modelled symbolically: a signed token records
  the algorithm it was signed with, its claims, and — as an idealized MAC —
  the key and the claim set the signature was computed over.  Verification
  compares these against the configured secret and the token's own claims,
  which is exactly the behaviour of an unforgeable HMAC.
* `os.Getenv("JWT_SECRET")` and `time.Now()` become fields of an explicit
  environment record.
* The bcrypt boundary (`bcrypt.CompareHashAndPassword`) becomes an oracle
  `verifyPw : String → String → Bool` supplied by the world.
* Fallible effects inside `IssueRefreshToken` (`rand.Read`, `json.Marshal`,
  `cache.Set`) become explicit outcomes in an effect record.
* The Redis cache becomes an association list threaded through the handler;
  repository calls are recorded in an operation trace so that ordering and
  frame properties can be stated.
-/

namespace LifeIsHard

/-- Embedding of `internal/model/user.go`: the `User` record (timestamps omitted — the
auth core never reads them). -/
structure User where
  id : Int
  name : String
  email : String
  passwordHash : String
  isAdmin : Bool
deriving DecidableEq, Repr

/-- Embedding of `internal/model/oauth_client.go`: the `OAuthClient` record restricted to
the fields the token endpoint reads (`ClientID`, `ClientSecret`, the owning
user id — `UserID`/`OwnerID` across schema variants — and `GrantTypes`). -/
structure OAuthClient where
  clientID : String
  clientSecret : String
  userID : Int
  grantTypes : List String
deriving DecidableEq, Repr

/-- Embedding of `service.CustomClaims`: the JWT claim set (`user_id`, `client_id`,
`is_admin`, plus the registered `sub`, `iat`, `exp` claims). -/
structure CustomClaims where
  userID : Int
  clientID : String
  isAdmin : Bool
  subject : String
  issuedAt : Int
  expiresAt : Int
deriving DecidableEq, Repr

/-- Embedding of `service.RefreshTokenData`: the record persisted in the cache for each
refresh token. -/
structure RefreshTokenData where
  userID : Int
  clientID : String
  isAdmin : Bool
deriving DecidableEq, Repr

/-- JWT signing algorithms relevant to this code base.  `jwt.SigningMethodHMAC`
covers HS256/HS384/HS512; the verifier's key function rejects everything
else. -/
inductive Alg where
  | HS256
  | HS384
  | HS512
  | RS256
  | ES256
deriving DecidableEq, Repr

/-- Whether the algorithm is an instance of `jwt.SigningMethodHMAC`. -/
def Alg.isHMAC : Alg → Bool
  | .HS256 => true
  | .HS384 => true
  | .HS512 => true
  | _ => false

/-- A signed JWT.  `sigKey` and `sigClaims` model the HMAC symbolically:
they are the key and the payload the signature was actually computed over.
A genuine signing operation sets `sigClaims = claims`; a forged or tampered
token may not. -/
structure SignedToken where
  alg : Alg
  claims : CustomClaims
  sigKey : String
  sigClaims : CustomClaims
deriving DecidableEq, Repr

/-- Embedding of `jwt.NewWithClaims(method, claims).SignedString(key)`. -/
def signToken (alg : Alg) (claims : CustomClaims) (key : String) : SignedToken :=
  ⟨alg, claims, key, claims⟩

/-- Process environment of the token issuer/verifier: the configured
`JWT_SECRET` and the current clock reading (`timeNow`). -/
structure Env where
  jwtSecret : String
  now : Int
deriving Repr

/-- Embedding of `service.AuthenticateUser`: wraps `ComparePassword` on the stored hash;
`vp` is the bcrypt comparison oracle. -/
def AuthenticateUser (vp : String → String → Bool) (user : User)
    (password : String) : Except String Unit :=
  if vp user.passwordHash password then .ok () else .error "invalid password"

/-- Embedding of `service.IssueAccessToken`: fails when no secret is configured, otherwise
signs HS256 claims for the user with `iat = now`, `exp = now + ttl`.
The `ClientID` claim is left at its zero value. -/
def IssueAccessToken (env : Env) (user : User) (ttl : Int) :
    Except String SignedToken :=
  if env.jwtSecret = "" then .error "JWT_SECRET not set"
  else
    .ok (signToken .HS256
      { userID := user.id
        clientID := ""
        isAdmin := user.isAdmin
        subject := toString user.id
        issuedAt := env.now
        expiresAt := env.now + ttl } env.jwtSecret)

/-- Embedding of `service.IssueClientAccessToken`: fails when no secret is configured or
when the supplied user is not the client's owner; otherwise signs HS256
claims carrying both the user id and the client id. -/
def IssueClientAccessToken (env : Env) (user : User) (client : OAuthClient)
    (ttl : Int) : Except String SignedToken :=
  if env.jwtSecret = "" then .error "JWT_SECRET not set"
  else if user.id ≠ client.userID then
    .error ("user is not the owner of client " ++ client.clientID)
  else
    .ok (signToken .HS256
      { userID := user.id
        clientID := client.clientID
        isAdmin := user.isAdmin
        subject := client.clientID
        issuedAt := env.now
        expiresAt := env.now + ttl } env.jwtSecret)

/-- Embedding of `service.VerifyAccessToken` via `jwt.ParseWithClaims`: fails when no
secret is configured; the key function rejects non-HMAC algorithms; the
signature must have been computed with the configured secret over the
token's own claims; the `exp` claim must lie strictly in the future
(jwt/v5 validates `now < exp` with zero leeway). -/
def VerifyAccessToken (env : Env) (tok : SignedToken) :
    Except String CustomClaims :=
  if env.jwtSecret = "" then .error "JWT_SECRET not set"
  else if ¬ tok.alg.isHMAC then .error "unexpected signing method"
  else if tok.sigKey ≠ env.jwtSecret ∨ tok.sigClaims ≠ tok.claims then
    .error "signature is invalid"
  else if ¬ (env.now < tok.claims.expiresAt) then
    .error "token is expired"
  else
    .ok tok.claims

/-- A cache value: either a well-formed serialized `RefreshTokenData`
(what `json.Marshal` produces) or corrupt bytes that `json.Unmarshal`
rejects. -/
inductive CacheVal where
  | record (d : RefreshTokenData)
  | corrupt (s : String)
deriving DecidableEq, Repr

/-- A cache entry: the stored value and the TTL it was set with. -/
structure CacheEntry where
  val : CacheVal
  ttl : Int
deriving DecidableEq, Repr

/-- The shared Redis cache, as an association list from keys to entries.
`Get` returns the first binding; `Set` prepends (overwrites). -/
abbrev Cache := List (String × CacheEntry)

/-- Embedding of `redis Get`: first binding for the key, `none` for `redis.Nil`. -/
def Cache.get (c : Cache) (k : String) : Option CacheEntry :=
  match c with
  | [] => none
  | (k', e) :: rest => if k' = k then some e else Cache.get rest k

/-- Embedding of `redis Set` with expiry: the new binding shadows any previous one. -/
def Cache.set (c : Cache) (k : String) (v : CacheVal) (ttl : Int) : Cache :=
  (k, ⟨v, ttl⟩) :: c

/-- The RFC 4648 URL-safe base64 alphabet used by `base64.RawURLEncoding`. -/
def b64UrlChar (n : Nat) : Char :=
  (("ABCDEFGHIJKLMNOPQRSTUVWXYZabcdefghijklmnopqrstuvwxyz0123456789-_").toList).getD n '?'

/-- Embedding of `base64.RawURLEncoding.EncodeToString`: URL-safe base64 without
padding, byte values taken mod 256. -/
def rawURLEncode : List Nat → List Char
  | [] => []
  | [a] =>
    let a := a % 256
    [b64UrlChar (a / 4), b64UrlChar (a % 4 * 16)]
  | [a, b] =>
    let a := a % 256
    let b := b % 256
    [b64UrlChar (a / 4), b64UrlChar (a % 4 * 16 + b / 16), b64UrlChar (b % 16 * 4)]
  | a :: b :: c :: rest =>
    let a := a % 256
    let b := b % 256
    let c := c % 256
    b64UrlChar (a / 4) :: b64UrlChar (a % 4 * 16 + b / 16) ::
      b64UrlChar (b % 16 * 4 + c / 64) :: b64UrlChar (c % 64) :: rawURLEncode rest

/-- Outcomes of the fallible effects inside `IssueRefreshToken`:
`rand.Read` into the 32-byte buffer (its contract fills all 32 bytes on
success), whether `json.Marshal` succeeds, and whether `cache.Set`
succeeds. -/
structure RTEnv where
  randResult : Except String (List Nat)
  marshalOk : Bool
  setOk : Bool

/-- Embedding of `service.IssueRefreshToken`: draw 32 random bytes (failure aborts),
URL-safe base64 encode them into the opaque token, marshal the record
(failure aborts), and store it under `refresh_token:<token>` with the
given TTL (failure aborts).  Only a durably recorded token is returned. -/
def IssueRefreshToken (env : RTEnv) (cache : Cache) (userID : Int)
    (clientID : String) (isAdmin : Bool) (ttl : Int) :
    Except String (String × Cache) :=
  match env.randResult with
  | .error e => .error ("failed to generate refresh token: " ++ e)
  | .ok bytes =>
    let token := String.mk (rawURLEncode bytes)
    if ¬ env.marshalOk then .error "failed to marshal refresh token data"
    else
      let key := "refresh_token:" ++ token
      if ¬ env.setOk then .error "failed to store refresh token"
      else .ok (token,
        Cache.set cache key (.record ⟨userID, clientID, isAdmin⟩) ttl)

/-- Embedding of `service.ValidateRefreshToken`: read `refresh_token:<token>`; a miss is
"not found or expired", an unparsable value is a parse failure, otherwise
the stored record is returned.  The cache is only read. -/
def ValidateRefreshToken (cache : Cache) (token : String) :
    Except String RefreshTokenData :=
  match Cache.get cache ("refresh_token:" ++ token) with
  | none => .error "refresh token not found or expired"
  | some entry =>
    match entry.val with
    | .record d => .ok d
    | .corrupt _ => .error "failed to parse refresh token data"

/-- Embedding of `oauth.TokenRequest` after Basic-auth extraction: the bound form fields
plus `ClientID`/`ClientSecret` parsed out of the `Authorization` header. -/
structure TokenRequest where
  grantType : String
  username : String
  password : String
  refreshToken : String
  clientID : String
  clientSecret : String
deriving DecidableEq, Repr

/-- Embedding of `oauth.TokenResponse` (the access token kept in its structured form;
`refreshToken = ""` models the omitted `omitempty` field). -/
structure TokenResponse where
  accessToken : SignedToken
  tokenType : String
  expiresIn : Int
  refreshToken : String
deriving DecidableEq, Repr

/-- The JSON body the handler writes: an error message or a token
response. -/
inductive Body where
  | err (message : String)
  | ok (resp : TokenResponse)
deriving DecidableEq, Repr

/-- A call into the relational store (`repository.*`), recorded in order. -/
inductive StoreOp where
  | getClient (clientID : String)
  | getUserByName (name : String)
  | getUserByID (id : Int)
deriving DecidableEq, Repr

/-- What a single `TokenHandler` invocation produced: HTTP status, body,
the cache after the request, and the trace of store calls in order. -/
structure HandlerResult where
  status : Nat
  body : Body
  cache : Cache
  ops : List StoreOp
deriving Repr

/-- Everything a `TokenHandler` invocation can observe: the relational
store (clients keyed by client id, users keyed by name and by id), the
bcrypt comparison oracle, the signing environment, the refresh-token
effect outcomes, and the shared cache. -/
structure World where
  clients : List (String × OAuthClient)
  usersByName : List (String × User)
  usersByID : List (Int × User)
  verifyPw : String → String → Bool
  jwtSecret : String
  now : Int
  rt : RTEnv
  cache : Cache

/-- Exact-match lookup in an association list (the store's only relevant
contract: first binding for the key, error on absence). -/
def lookupA {α β : Type} [DecidableEq α] : List (α × β) → α → Option β
  | [], _ => none
  | (k, v) :: rest, k' => if k = k' then some v else lookupA rest k'

/-- Embedding of `oauth.TokenHandler` (`internal/handler/oauth/token.go`), from the
point where `ClientID`/`ClientSecret` have been extracted from the Basic
header: authenticate the client, check grant-type set membership, then
branch on the grant type.  Durations are 24h = 86400 s for access tokens
and 30d = 2592000 s for refresh tokens, matching the source. -/
def TokenHandler (w : World) (req : TokenRequest) : HandlerResult :=
  let env : Env := ⟨w.jwtSecret, w.now⟩
  let ops := [StoreOp.getClient req.clientID]
  match lookupA w.clients req.clientID with
  | none => ⟨401, .err "invalid client credentials", w.cache, ops⟩
  | some oc =>
    if oc.clientSecret ≠ req.clientSecret then
      ⟨401, .err "invalid client credentials", w.cache, ops⟩
    else if ¬ oc.grantTypes.contains req.grantType then
      ⟨400, .err "unauthorized grant_type", w.cache, ops⟩
    else if req.grantType = "password" then
      let ops := ops ++ [StoreOp.getUserByName req.username]
      match lookupA w.usersByName req.username with
      | none => ⟨401, .err "invalid credentials", w.cache, ops⟩
      | some user =>
        match AuthenticateUser w.verifyPw user req.password with
        | .error _ => ⟨401, .err "invalid credentials", w.cache, ops⟩
        | .ok _ =>
          match IssueAccessToken env user 86400 with
          | .error _ => ⟨500, .err "failed to issue token", w.cache, ops⟩
          | .ok tok =>
            match IssueRefreshToken w.rt w.cache user.id oc.clientID
                user.isAdmin 2592000 with
            | .error _ =>
              ⟨500, .err "failed to issue refresh token", w.cache, ops⟩
            | .ok (rt, cache') =>
              ⟨200, .ok ⟨tok, "Bearer", 86400, rt⟩, cache', ops⟩
    else if req.grantType = "client_credentials" then
      let ops := ops ++ [StoreOp.getUserByID oc.userID]
      match lookupA w.usersByID oc.userID with
      | none => ⟨500, .err "failed to retrieve client owner", w.cache, ops⟩
      | some owner =>
        match IssueClientAccessToken env owner oc 86400 with
        | .error _ => ⟨500, .err "failed to issue token", w.cache, ops⟩
        | .ok tok => ⟨200, .ok ⟨tok, "Bearer", 86400, ""⟩, w.cache, ops⟩
    else if req.grantType = "refresh_token" then
      match ValidateRefreshToken w.cache req.refreshToken with
      | .error _ => ⟨401, .err "invalid refresh token", w.cache, ops⟩
      | .ok data =>
        match IssueAccessToken env ⟨data.userID, "", "", "", false⟩ 86400 with
        | .error _ => ⟨500, .err "failed to issue token", w.cache, ops⟩
        | .ok tok =>
          ⟨200, .ok ⟨tok, "Bearer", 86400, req.refreshToken⟩, w.cache, ops⟩
    else
      ⟨400, .err "unsupported grant_type", w.cache, ops⟩

/-! ## Theorems -/

/-- C8: with an empty signing secret, access-token issuance (user and
client variants) and verification fail with an error on every input: no
token is produced and no token is accepted. -/
theorem empty_secret_fails_closed (n : Int) (user : User)
    (client : OAuthClient) (ttl : Int) (tok : SignedToken) :
    IssueAccessToken ⟨"", n⟩ user ttl = .error "JWT_SECRET not set" ∧
    IssueClientAccessToken ⟨"", n⟩ user client ttl =
      .error "JWT_SECRET not set" ∧
    VerifyAccessToken ⟨"", n⟩ tok = .error "JWT_SECRET not set" := by
  refine ⟨?_, ?_, ?_⟩ <;>
    simp [IssueAccessToken, IssueClientAccessToken, VerifyAccessToken]

/-- C10: tokens from `IssueAccessToken` (the password-grant and login
path) never carry a client binding — the claims recovered by verification
have an empty client id — while `IssueClientAccessToken` is the only
issuer that sets the client id claim. -/
theorem access_token_has_no_client_binding :
    (∀ (env : Env) (user : User) (ttl : Int) (tok : SignedToken),
      IssueAccessToken env user ttl = .ok tok →
        tok.claims.clientID = "" ∧
        ∀ (env2 : Env) (claims : CustomClaims),
          VerifyAccessToken env2 tok = .ok claims → claims.clientID = "") ∧
    (∀ (env : Env) (user : User) (client : OAuthClient) (ttl : Int)
        (tok : SignedToken),
      IssueClientAccessToken env user client ttl = .ok tok →
        tok.claims.clientID = client.clientID) := by
  constructor
  · intro env user ttl tok h
    have hsec : ¬ env.jwtSecret = "" := by
      intro he
      simp [IssueAccessToken, he] at h
    simp only [IssueAccessToken, if_neg hsec, Except.ok.injEq] at h
    subst h
    refine ⟨rfl, ?_⟩
    intro env2 claims hv
    simp only [VerifyAccessToken, signToken] at hv
    split at hv
    · exact absurd hv (by simp)
    · split at hv
      · exact absurd hv (by simp)
      · split at hv
        · exact absurd hv (by simp)
        · split at hv
          · exact absurd hv (by simp)
          · cases hv
            rfl
  · intro env user client ttl tok h
    have hsec : ¬ env.jwtSecret = "" := by
      intro he
      simp [IssueClientAccessToken, he] at h
    by_cases how : user.id = client.userID
    · simp only [IssueClientAccessToken, if_neg hsec, how, ne_eq,
        not_true_eq_false, if_false, Except.ok.injEq] at h
      subst h
      rfl
    · simp [IssueClientAccessToken, if_neg hsec, how] at h

/-- C10 witness: a concrete user token has an empty client id claim and a
concrete client token carries its client's id. -/
theorem access_token_has_no_client_binding_witness :
    (∃ tok, IssueAccessToken ⟨"s", 0⟩ ⟨1, "a", "a@b", "h", true⟩ 60 = .ok tok ∧
      tok.claims.clientID = "") ∧
    (∃ tok, IssueClientAccessToken ⟨"s", 0⟩ ⟨1, "a", "a@b", "h", true⟩
        ⟨"cid", "sec", 1, ["client_credentials"]⟩ 60 = .ok tok ∧
      tok.claims.clientID = "cid") := by
  constructor
  · exact ⟨_, rfl, (access_token_has_no_client_binding.1 ⟨"s", 0⟩
      ⟨1, "a", "a@b", "h", true⟩ 60 _ rfl).1⟩
  · exact ⟨_, rfl, access_token_has_no_client_binding.2 ⟨"s", 0⟩
      ⟨1, "a", "a@b", "h", true⟩ ⟨"cid", "sec", 1, ["client_credentials"]⟩ 60 _ rfl⟩

/-- C3: with a configured secret and a positive ttl, `IssueAccessToken`
succeeds and the token it produces (a) verifies before `issued_at + ttl`
to claims carrying the subject's id and admin flag, (b) is rejected once
the clock reaches `issued_at + ttl`, (c) is rejected under any different
configured secret, and (d) any token bearing a non-HMAC algorithm is
rejected by every verifier. -/
theorem issue_verify_roundtrip (secret : String) (hs : secret ≠ "")
    (user : User) (ttl : Int) (_httl : 0 < ttl) (t0 : Int) :
    ∃ tok, IssueAccessToken ⟨secret, t0⟩ user ttl = .ok tok ∧
      (∀ t, t < t0 + ttl →
        VerifyAccessToken ⟨secret, t⟩ tok = .ok tok.claims ∧
        tok.claims.userID = user.id ∧ tok.claims.isAdmin = user.isAdmin) ∧
      (∀ t, t0 + ttl ≤ t →
        ∃ e, VerifyAccessToken ⟨secret, t⟩ tok = .error e) ∧
      (∀ s t, s ≠ secret → ∃ e, VerifyAccessToken ⟨s, t⟩ tok = .error e) ∧
      (∀ (env : Env) (tok2 : SignedToken), tok2.alg.isHMAC = false →
        ∃ e, VerifyAccessToken env tok2 = .error e) := by
  refine ⟨_, by simp only [IssueAccessToken, if_neg hs]; rfl, ?_, ?_, ?_, ?_⟩
  · intro t ht
    refine ⟨?_, rfl, rfl⟩
    simp only [VerifyAccessToken, signToken, if_neg hs, Alg.isHMAC]
    simp [ht]
  · intro t ht
    refine ⟨"token is expired", ?_⟩
    simp only [VerifyAccessToken, signToken, if_neg hs, Alg.isHMAC]
    have : ¬ t < t0 + ttl := by omega
    simp [this]
  · intro s t hne
    by_cases hse : s = ""
    · exact ⟨"JWT_SECRET not set", by simp [VerifyAccessToken, hse]⟩
    · refine ⟨"signature is invalid", ?_⟩
      simp only [VerifyAccessToken, signToken, if_neg hse, Alg.isHMAC]
      have : secret ≠ s := fun h => hne h.symm
      simp [this]
  · intro env tok2 halg
    by_cases hse : env.jwtSecret = ""
    · exact ⟨"JWT_SECRET not set", by simp [VerifyAccessToken, hse]⟩
    · refine ⟨"unexpected signing method", ?_⟩
      simp [VerifyAccessToken, hse, halg]

/-- C3 witness: the round-trip at a concrete secret, subject, ttl and
issuing time. -/
theorem issue_verify_roundtrip_witness :
    ("s3" ≠ "" ∧ (0 : Int) < 60) ∧
    (∃ tok, IssueAccessToken ⟨"s3", 100⟩ ⟨9, "u", "u@e", "h", true⟩ 60 = .ok tok ∧
      (∀ t, t < 100 + 60 →
        VerifyAccessToken ⟨"s3", t⟩ tok = .ok tok.claims ∧
        tok.claims.userID = 9 ∧ tok.claims.isAdmin = true) ∧
      (∀ t, 100 + 60 ≤ t →
        ∃ e, VerifyAccessToken ⟨"s3", t⟩ tok = .error e) ∧
      (∀ s t, s ≠ "s3" → ∃ e, VerifyAccessToken ⟨s, t⟩ tok = .error e) ∧
      (∀ (env : Env) (tok2 : SignedToken), tok2.alg.isHMAC = false →
        ∃ e, VerifyAccessToken env tok2 = .error e)) :=
  ⟨⟨by decide, by decide⟩,
    issue_verify_roundtrip "s3" (by decide) ⟨9, "u", "u@e", "h", true⟩ 60
      (by decide) 100⟩

/-- C2: for a recognized grant type and a successfully authenticated
client, absence of the grant type from the client's grant-type set makes
the dispatcher answer 400 `unauthorized grant_type` with no store access
beyond the client lookup, no grant-specific logic, and an unchanged
cache — for `refresh_token` exactly as for the other grants. -/
theorem unauthorized_grant_rejected (w : World) (req : TokenRequest)
    (oc : OAuthClient)
    (_hrec : req.grantType = "password" ∨ req.grantType = "client_credentials" ∨
      req.grantType = "refresh_token")
    (hc : lookupA w.clients req.clientID = some oc)
    (hsec : oc.clientSecret = req.clientSecret)
    (hmem : oc.grantTypes.contains req.grantType = false) :
    TokenHandler w req =
      ⟨400, .err "unauthorized grant_type", w.cache,
        [StoreOp.getClient req.clientID]⟩ := by
  clear _hrec
  have hmem' : req.grantType ∉ oc.grantTypes := by simpa using hmem
  simp [TokenHandler, hc, hsec, hmem']

/-- C2 witness: a client whose grant-type set is `{client_credentials}`
presenting `grant_type=password` is rejected with the unauthorized-grant
error even though the world holds a user whose credentials match the
request. -/
theorem unauthorized_grant_rejected_witness :
    (("alice", (⟨7, "alice", "a@b.c", "H", true⟩ : User)) ∈
        ([("alice", ⟨7, "alice", "a@b.c", "H", true⟩)] :
          List (String × User)) ∧
      (fun h p => h = "H" && p = "pw") "H" "pw" = true) ∧
    TokenHandler
      { clients := [("cid", ⟨"cid", "sec", 7, ["client_credentials"]⟩)]
        usersByName := [("alice", ⟨7, "alice", "a@b.c", "H", true⟩)]
        usersByID := [(7, ⟨7, "alice", "a@b.c", "H", true⟩)]
        verifyPw := fun h p => h = "H" && p = "pw"
        jwtSecret := "s3"
        now := 0
        rt := ⟨.ok (List.replicate 32 0), true, true⟩
        cache := [] }
      ⟨"password", "alice", "pw", "", "cid", "sec"⟩ =
      ⟨400, .err "unauthorized grant_type", [], [StoreOp.getClient "cid"]⟩ :=
  ⟨⟨by decide, by decide⟩,
    unauthorized_grant_rejected _ _ ⟨"cid", "sec", 7, ["client_credentials"]⟩
      (Or.inl rfl) rfl rfl rfl⟩

/-- C4: through the same authenticated client, a password-grant request
whose username matches no user and one whose username matches a user but
whose password fails verification produce identical responses: both
status 401 with the generic `invalid credentials` message. -/
theorem password_grant_no_enumeration (w : World) (r1 r2 : TokenRequest)
    (oc : OAuthClient)
    (hg1 : r1.grantType = "password") (hg2 : r2.grantType = "password")
    (hc1 : lookupA w.clients r1.clientID = some oc)
    (hc2 : lookupA w.clients r2.clientID = some oc)
    (hs1 : oc.clientSecret = r1.clientSecret)
    (hs2 : oc.clientSecret = r2.clientSecret)
    (hmem : oc.grantTypes.contains "password" = true)
    (hu1 : lookupA w.usersByName r1.username = none)
    (u : User) (hu2 : lookupA w.usersByName r2.username = some u)
    (hpw : w.verifyPw u.passwordHash r2.password = false) :
    (TokenHandler w r1).status = (TokenHandler w r2).status ∧
    (TokenHandler w r1).body = (TokenHandler w r2).body ∧
    (TokenHandler w r1).status = 401 ∧
    (TokenHandler w r1).body = .err "invalid credentials" := by
  have hmem' : "password" ∈ oc.grantTypes := by simpa using hmem
  have h1 : (TokenHandler w r1).status = 401 ∧
      (TokenHandler w r1).body = .err "invalid credentials" := by
    simp [TokenHandler, hg1, hc1, hs1, hmem', hu1]
  have h2 : (TokenHandler w r2).status = 401 ∧
      (TokenHandler w r2).body = .err "invalid credentials" := by
    simp [TokenHandler, hg2, hc2, hs2, hmem', hu2, AuthenticateUser, hpw]
  exact ⟨h1.1.trans h2.1.symm, h1.2.trans h2.2.symm, h1.1, h1.2⟩

/-- C4 witness: the two indistinguishable failures at concrete inputs —
`bob` does not exist, `alice` exists but the password is wrong. -/
theorem password_grant_no_enumeration_witness :
    (TokenHandler
        { clients := [("cid", ⟨"cid", "sec", 7, ["password"]⟩)]
          usersByName := [("alice", ⟨7, "alice", "a@b.c", "H", true⟩)]
          usersByID := []
          verifyPw := fun h p => h = "H" && p = "pw"
          jwtSecret := "s3"
          now := 0
          rt := ⟨.ok (List.replicate 32 0), true, true⟩
          cache := [] }
        ⟨"password", "bob", "whatever", "", "cid", "sec"⟩).status =
      (TokenHandler
        { clients := [("cid", ⟨"cid", "sec", 7, ["password"]⟩)]
          usersByName := [("alice", ⟨7, "alice", "a@b.c", "H", true⟩)]
          usersByID := []
          verifyPw := fun h p => h = "H" && p = "pw"
          jwtSecret := "s3"
          now := 0
          rt := ⟨.ok (List.replicate 32 0), true, true⟩
          cache := [] }
        ⟨"password", "alice", "wrong", "", "cid", "sec"⟩).status ∧
    (TokenHandler
        { clients := [("cid", ⟨"cid", "sec", 7, ["password"]⟩)]
          usersByName := [("alice", ⟨7, "alice", "a@b.c", "H", true⟩)]
          usersByID := []
          verifyPw := fun h p => h = "H" && p = "pw"
          jwtSecret := "s3"
          now := 0
          rt := ⟨.ok (List.replicate 32 0), true, true⟩
          cache := [] }
        ⟨"password", "bob", "whatever", "", "cid", "sec"⟩).body =
      .err "invalid credentials" := by
  have h := password_grant_no_enumeration
    { clients := [("cid", ⟨"cid", "sec", 7, ["password"]⟩)]
      usersByName := [("alice", ⟨7, "alice", "a@b.c", "H", true⟩)]
      usersByID := []
      verifyPw := fun h p => h = "H" && p = "pw"
      jwtSecret := "s3"
      now := 0
      rt := ⟨.ok (List.replicate 32 0), true, true⟩
      cache := [] }
    ⟨"password", "bob", "whatever", "", "cid", "sec"⟩
    ⟨"password", "alice", "wrong", "", "cid", "sec"⟩
    ⟨"cid", "sec", 7, ["password"]⟩ rfl rfl rfl rfl rfl rfl rfl rfl
    ⟨7, "alice", "a@b.c", "H", true⟩ rfl (by decide)
  exact ⟨h.1, h.2.2.2⟩

/-- C7: a `refresh_token` grant request — whatever its outcome — leaves
the cache exactly as it was (the record is only read, never written,
rewritten or deleted), and on success the response echoes back the very
refresh token the caller submitted. -/
theorem refresh_grant_cache_frame (w : World) (req : TokenRequest)
    (hg : req.grantType = "refresh_token") :
    (TokenHandler w req).cache = w.cache ∧
    (∀ resp, (TokenHandler w req).body = .ok resp →
      resp.refreshToken = req.refreshToken) := by
  unfold TokenHandler
  rw [hg]
  repeat' split
  all_goals try exact ⟨rfl, fun resp h => by cases h⟩
  all_goals try simp_all
  all_goals refine ⟨by split <;> rfl, fun resp h => ?_⟩
  all_goals split at h
  all_goals try cases h
  all_goals rfl

/-- C7 witness: a concrete successful refresh grant leaves the cache
unchanged and echoes the submitted token. -/
theorem refresh_grant_cache_frame_witness :
    (TokenHandler
        { clients := [("cid", ⟨"cid", "sec", 7, ["refresh_token"]⟩)]
          usersByName := []
          usersByID := []
          verifyPw := fun _ _ => false
          jwtSecret := "s3"
          now := 0
          rt := ⟨.ok (List.replicate 32 0), true, true⟩
          cache := [("refresh_token:rt", ⟨.record ⟨7, "cid", true⟩, 99⟩)] }
        ⟨"refresh_token", "", "", "rt", "cid", "sec"⟩).cache =
      [("refresh_token:rt", ⟨.record ⟨7, "cid", true⟩, 99⟩)] ∧
    (∀ resp, (TokenHandler
        { clients := [("cid", ⟨"cid", "sec", 7, ["refresh_token"]⟩)]
          usersByName := []
          usersByID := []
          verifyPw := fun _ _ => false
          jwtSecret := "s3"
          now := 0
          rt := ⟨.ok (List.replicate 32 0), true, true⟩
          cache := [("refresh_token:rt", ⟨.record ⟨7, "cid", true⟩, 99⟩)] }
        ⟨"refresh_token", "", "", "rt", "cid", "sec"⟩).body = .ok resp →
      resp.refreshToken = "rt") :=
  refresh_grant_cache_frame
    { clients := [("cid", ⟨"cid", "sec", 7, ["refresh_token"]⟩)]
      usersByName := []
      usersByID := []
      verifyPw := fun _ _ => false
      jwtSecret := "s3"
      now := 0
      rt := ⟨.ok (List.replicate 32 0), true, true⟩
      cache := [("refresh_token:rt", ⟨.record ⟨7, "cid", true⟩, 99⟩)] }
    ⟨"refresh_token", "", "", "rt", "cid", "sec"⟩ rfl

/-- C6: given `rand.Read`'s contract (the 32-byte buffer is filled on
success), `IssueRefreshToken` only returns a token when the serialized
record has been written: any returned token is the URL-safe encoding of
the 32 random bytes and the cache then holds the record under
`refresh_token:<token>` with the requested TTL; a randomness, marshal or
cache-write failure yields an error and no token. -/
theorem issue_refresh_token_durable (env : RTEnv) (cache : Cache)
    (uid : Int) (cid : String) (adm : Bool) (ttl : Int)
    (r : List Nat) (hr : env.randResult = .ok r) (hlen : r.length = 32) :
    (∀ tok c', IssueRefreshToken env cache uid cid adm ttl = .ok (tok, c') →
      tok = String.mk (rawURLEncode r) ∧ r.length = 32 ∧
      Cache.get c' ("refresh_token:" ++ tok) =
        some ⟨.record ⟨uid, cid, adm⟩, ttl⟩) ∧
    (env.marshalOk = true → env.setOk = true →
      IssueRefreshToken env cache uid cid adm ttl =
        .ok (String.mk (rawURLEncode r),
          Cache.set cache ("refresh_token:" ++ String.mk (rawURLEncode r))
            (.record ⟨uid, cid, adm⟩) ttl)) ∧
    (env.marshalOk = false →
      ∃ e, IssueRefreshToken env cache uid cid adm ttl = .error e) ∧
    (env.setOk = false →
      ∃ e, IssueRefreshToken env cache uid cid adm ttl = .error e) ∧
    (∀ (env2 : RTEnv) (msg : String), env2.randResult = .error msg →
      ∃ e, IssueRefreshToken env2 cache uid cid adm ttl = .error e) := by
  refine ⟨?_, ?_, ?_, ?_, ?_⟩
  · intro tok c' h
    simp only [IssueRefreshToken, hr] at h
    by_cases hm : env.marshalOk
    · by_cases hst : env.setOk
      · simp only [hm, hst, not_true_eq_false, if_false, Except.ok.injEq,
          Prod.mk.injEq] at h
        obtain ⟨htok, hc'⟩ := h
        subst htok
        subst hc'
        exact ⟨rfl, hlen, by simp [Cache.set, Cache.get]⟩
      · simp [hm, hst] at h
    · simp [hm] at h
  · intro hm hst
    simp [IssueRefreshToken, hr, hm, hst]
  · intro hm
    exact ⟨"failed to marshal refresh token data",
      by simp [IssueRefreshToken, hr, hm]⟩
  · intro hst
    by_cases hm : env.marshalOk
    · exact ⟨"failed to store refresh token",
        by simp [IssueRefreshToken, hr, hm, hst]⟩
    · exact ⟨"failed to marshal refresh token data",
        by simp [IssueRefreshToken, hr, hm]⟩
  · intro env2 msg h2
    exact ⟨"failed to generate refresh token: " ++ msg,
      by simp [IssueRefreshToken, h2]⟩

/-- C6 witness: issuance at a concrete 32-byte random draw writes the
record under the namespaced key and returns its URL-safe encoding. -/
theorem issue_refresh_token_durable_witness :
    ((⟨.ok (List.replicate 32 0), true, true⟩ : RTEnv).randResult =
        .ok (List.replicate 32 0) ∧
      (List.replicate 32 (0 : Nat)).length = 32) ∧
    IssueRefreshToken ⟨.ok (List.replicate 32 0), true, true⟩ [] 7 "cid" true
        2592000 =
      .ok (String.mk (rawURLEncode (List.replicate 32 0)),
        Cache.set [] ("refresh_token:" ++
            String.mk (rawURLEncode (List.replicate 32 0)))
          (.record ⟨7, "cid", true⟩) 2592000) :=
  ⟨⟨rfl, by decide⟩,
    (issue_refresh_token_durable ⟨.ok (List.replicate 32 0), true, true⟩ []
      7 "cid" true 2592000 (List.replicate 32 0) rfl (by decide)).2.1 rfl rfl⟩

/-- Concrete world for exercising the `refresh_token` grant: the cache
holds a record for token `rt` pointing at user 7, and the store's user 7
currently has the admin flag set. -/
def C1world : World :=
  { clients := [("cid", ⟨"cid", "sec", 7, ["refresh_token"]⟩)]
    usersByName := [("alice", ⟨7, "alice", "a@b.c", "H", true⟩)]
    usersByID := [(7, ⟨7, "alice", "a@b.c", "H", true⟩)]
    verifyPw := fun h p => h = "H" && p = "pw"
    jwtSecret := "s3"
    now := 0
    rt := ⟨.ok (List.replicate 32 0), true, true⟩
    cache := [("refresh_token:rt", ⟨.record ⟨7, "cid", true⟩, 99⟩)] }

/-- Variant of `C1world` with the user table emptied: the user id stored in the
refresh record no longer resolves to any user. -/
def C1worldNoUser : World :=
  { C1world with usersByID := [], usersByName := [] }

/-- The `refresh_token` grant request for token `rt` through client
`cid`. -/
def C1req : TokenRequest := ⟨"refresh_token", "", "", "rt", "cid", "sec"⟩

/-- C1 counterexample: on this successful refresh grant the issued access
token carries `isAdmin = false` although the user the record points at is
currently an admin, the dispatcher performs no user lookup at all, and
the grant still succeeds when the recorded user id resolves to no user —
so no re-resolution (and no re-resolution-failure server error) exists. -/
theorem refresh_no_reresolution_counterexample :
    (TokenHandler C1world C1req).status = 200 ∧
    (TokenHandler C1world C1req).body =
      .ok ⟨⟨.HS256, ⟨7, "", false, "7", 0, 86400⟩, "s3",
        ⟨7, "", false, "7", 0, 86400⟩⟩, "Bearer", 86400, "rt"⟩ ∧
    lookupA C1world.usersByID 7 = some ⟨7, "alice", "a@b.c", "H", true⟩ ∧
    (∀ i, StoreOp.getUserByID i ∉ (TokenHandler C1world C1req).ops) ∧
    (TokenHandler C1worldNoUser C1req).status = 200 := by
  refine ⟨by decide, by decide, by decide, ?_, by decide⟩
  intro i
  have hops : (TokenHandler C1world C1req).ops = [StoreOp.getClient "cid"] := by
    decide
  rw [hops]
  simp

/-- C1 amended: on a `refresh_token` grant whose record lookup succeeds
(and with a configured secret), the dispatcher issues the access token
directly for the user id stored in the record with the admin flag fixed
to `false` — it performs no user lookup, so there is no re-resolution and
no re-resolution-failure path. -/
theorem refresh_grant_uses_stale_identity (w : World) (req : TokenRequest)
    (hg : req.grantType = "refresh_token") (oc : OAuthClient)
    (hc : lookupA w.clients req.clientID = some oc)
    (hsec : oc.clientSecret = req.clientSecret)
    (hmem : oc.grantTypes.contains "refresh_token" = true)
    (data : RefreshTokenData)
    (hval : ValidateRefreshToken w.cache req.refreshToken = .ok data)
    (hjwt : w.jwtSecret ≠ "") :
    TokenHandler w req =
      ⟨200, .ok ⟨signToken .HS256
          ⟨data.userID, "", false, toString data.userID, w.now, w.now + 86400⟩
          w.jwtSecret, "Bearer", 86400, req.refreshToken⟩,
        w.cache, [StoreOp.getClient req.clientID]⟩ ∧
    (∀ i, StoreOp.getUserByID i ∉ (TokenHandler w req).ops) ∧
    (∀ n, StoreOp.getUserByName n ∉ (TokenHandler w req).ops) := by
  have hmem' : "refresh_token" ∈ oc.grantTypes := by simpa using hmem
  have hres : TokenHandler w req =
      ⟨200, .ok ⟨signToken .HS256
          ⟨data.userID, "", false, toString data.userID, w.now, w.now + 86400⟩
          w.jwtSecret, "Bearer", 86400, req.refreshToken⟩,
        w.cache, [StoreOp.getClient req.clientID]⟩ := by
    simp [TokenHandler, hg, hc, hsec, hmem', hval, IssueAccessToken, hjwt,
      signToken]
  rw [hres]
  exact ⟨rfl, fun i => by simp, fun n => by simp⟩

/-- C1 amended witness: the stale-identity issuance at the concrete
world. -/
theorem refresh_grant_uses_stale_identity_witness :
    TokenHandler C1world C1req =
      ⟨200, .ok ⟨signToken .HS256 ⟨7, "", false, "7", 0, 86400⟩ "s3",
        "Bearer", 86400, "rt"⟩, C1world.cache,
        [StoreOp.getClient "cid"]⟩ ∧
    (∀ i, StoreOp.getUserByID i ∉ (TokenHandler C1world C1req).ops) ∧
    (∀ n, StoreOp.getUserByName n ∉ (TokenHandler C1world C1req).ops) :=
  refresh_grant_uses_stale_identity C1world C1req rfl
    ⟨"cid", "sec", 7, ["refresh_token"]⟩ rfl rfl (by decide)
    ⟨7, "cid", true⟩ rfl (by decide)

/-- Concrete world for exercising unrecognized grant types: client `cid`
with secret `sec` and grant-type set `{password}`. -/
def C5world : World :=
  { clients := [("cid", ⟨"cid", "sec", 7, ["password"]⟩)]
    usersByName := [("alice", ⟨7, "alice", "a@b.c", "H", true⟩)]
    usersByID := [(7, ⟨7, "alice", "a@b.c", "H", true⟩)]
    verifyPw := fun h p => h = "H" && p = "pw"
    jwtSecret := "s3"
    now := 0
    rt := ⟨.ok (List.replicate 32 0), true, true⟩
    cache := [] }

/-- C5 counterexample: `grant_type=carrier_pigeon` with a valid client
secret is answered `unauthorized grant_type` — not `unsupported
grant_type` — and only after the client record was fetched from the store
(the operation trace is non-empty); with a wrong client secret the same
grant type yields the invalid-client response, so client authorization is
checked before the unrecognized grant type is rejected. -/
theorem unsupported_grant_counterexample :
    (TokenHandler C5world ⟨"carrier_pigeon", "", "", "", "cid", "sec"⟩).body =
      .err "unauthorized grant_type" ∧
    (TokenHandler C5world ⟨"carrier_pigeon", "", "", "", "cid", "sec"⟩).body ≠
      .err "unsupported grant_type" ∧
    (TokenHandler C5world ⟨"carrier_pigeon", "", "", "", "cid", "sec"⟩).ops =
      [StoreOp.getClient "cid"] ∧
    (TokenHandler C5world ⟨"carrier_pigeon", "", "", "", "cid", "sec"⟩).ops ≠
      [] ∧
    (TokenHandler C5world ⟨"carrier_pigeon", "", "", "", "cid", "bad"⟩).status =
      401 ∧
    (TokenHandler C5world ⟨"carrier_pigeon", "", "", "", "cid", "bad"⟩).body =
      .err "invalid client credentials" := by
  refine ⟨by decide, by decide, by decide, by decide, by decide, by decide⟩

/-- C5 amended: a request whose grant type is none of the three
recognized values is rejected only after the client was looked up in the
store and authenticated; it draws `unsupported grant_type` when the
unrecognized value happens to be in the client's grant-type set and
`unauthorized grant_type` otherwise, with no store access beyond the
client lookup in either case. -/
theorem unrecognized_grant_after_client_auth (w : World) (req : TokenRequest)
    (oc : OAuthClient)
    (h1 : req.grantType ≠ "password")
    (h2 : req.grantType ≠ "client_credentials")
    (h3 : req.grantType ≠ "refresh_token")
    (hc : lookupA w.clients req.clientID = some oc)
    (hsec : oc.clientSecret = req.clientSecret) :
    TokenHandler w req =
      if oc.grantTypes.contains req.grantType then
        ⟨400, .err "unsupported grant_type", w.cache,
          [StoreOp.getClient req.clientID]⟩
      else
        ⟨400, .err "unauthorized grant_type", w.cache,
          [StoreOp.getClient req.clientID]⟩ := by
  cases hmc : oc.grantTypes.contains req.grantType with
  | false =>
    have hm' : req.grantType ∉ oc.grantTypes := by simpa using hmc
    simp [TokenHandler, hc, hsec, hm', hmc]
  | true =>
    have hm' : req.grantType ∈ oc.grantTypes := by simpa using hmc
    simp [TokenHandler, hc, hsec, hm', hmc, h1, h2, h3]

/-- C5 amended witness: a client whose set contains the unrecognized
value `carrier_pigeon` receives `unsupported grant_type` after client
authentication. -/
theorem unrecognized_grant_after_client_auth_witness :
    TokenHandler
      { clients := [("cid", ⟨"cid", "sec", 7, ["carrier_pigeon"]⟩)]
        usersByName := []
        usersByID := []
        verifyPw := fun _ _ => false
        jwtSecret := "s3"
        now := 0
        rt := ⟨.ok (List.replicate 32 0), true, true⟩
        cache := [] }
      ⟨"carrier_pigeon", "", "", "", "cid", "sec"⟩ =
      ⟨400, .err "unsupported grant_type", [], [StoreOp.getClient "cid"]⟩ := by
  have h := unrecognized_grant_after_client_auth
    { clients := [("cid", ⟨"cid", "sec", 7, ["carrier_pigeon"]⟩)]
      usersByName := []
      usersByID := []
      verifyPw := fun _ _ => false
      jwtSecret := "s3"
      now := 0
      rt := ⟨.ok (List.replicate 32 0), true, true⟩
      cache := [] }
    ⟨"carrier_pigeon", "", "", "", "cid", "sec"⟩
    ⟨"cid", "sec", 7, ["carrier_pigeon"]⟩
    (by decide) (by decide) (by decide) rfl rfl
  simpa using h

/-- Concrete world for exercising the password grant with empty
credential fields. -/
def C9world : World :=
  { clients := [("cid", ⟨"cid", "sec", 7, ["password"]⟩)]
    usersByName := [("alice", ⟨7, "alice", "a@b.c", "H", true⟩)]
    usersByID := [(7, ⟨7, "alice", "a@b.c", "H", true⟩)]
    verifyPw := fun h p => h = "H" && p = "pw"
    jwtSecret := "s3"
    now := 0
    rt := ⟨.ok (List.replicate 32 0), true, true⟩
    cache := [] }

/-- C9 counterexample: a password-grant request with an empty username is
not rejected by any validation step — the dispatcher performs the user
lookup with the empty name and fails afterwards with the generic
credential error; likewise an empty password still triggers the user
lookup. -/
theorem empty_credentials_counterexample :
    StoreOp.getUserByName "" ∈
      (TokenHandler C9world ⟨"password", "", "x", "", "cid", "sec"⟩).ops ∧
    (TokenHandler C9world ⟨"password", "", "x", "", "cid", "sec"⟩).status =
      401 ∧
    (TokenHandler C9world ⟨"password", "", "x", "", "cid", "sec"⟩).body =
      .err "invalid credentials" ∧
    StoreOp.getUserByName "alice" ∈
      (TokenHandler C9world ⟨"password", "alice", "", "", "cid", "sec"⟩).ops := by
  refine ⟨by decide, by decide, by decide, by decide⟩

/-- C9 amended: on every password-grant request through an authenticated
client authorized for the grant, the dispatcher looks the username up in
the store unconditionally — empty username or password fields receive no
prior validation. -/
theorem password_grant_always_looks_up (w : World) (req : TokenRequest)
    (hg : req.grantType = "password") (oc : OAuthClient)
    (hc : lookupA w.clients req.clientID = some oc)
    (hsec : oc.clientSecret = req.clientSecret)
    (hmem : oc.grantTypes.contains "password" = true) :
    StoreOp.getUserByName req.username ∈ (TokenHandler w req).ops := by
  have hmem' : "password" ∈ oc.grantTypes := by simpa using hmem
  unfold TokenHandler
  rw [hg]
  repeat' split
  all_goals try simp_all
  all_goals split <;> simp

/-- C9 amended witness: the lookup happens with the empty username. -/
theorem password_grant_always_looks_up_witness :
    StoreOp.getUserByName "" ∈
      (TokenHandler C9world ⟨"password", "", "", "", "cid", "sec"⟩).ops :=
  password_grant_always_looks_up C9world
    ⟨"password", "", "", "", "cid", "sec"⟩ rfl
    ⟨"cid", "sec", 7, ["password"]⟩ rfl rfl (by decide)

end LifeIsHard
